import Mathlib

/-!
Verification development for the MicroRaiden-style micropayment channel
client implemented in `src/lib/uraiden.ts`.  The data model, the persistence
layer and the lifecycle/proof operations are shallowly embedded as executable
Lean functions; blockchain interactions (event queries, contract views, the
current block number and the configured challenge period) are modelled by an
explicit `Chain` environment, and the external signing/recovery collaborators
by function parameters.  Throwing `async` methods are embedded as `Except`
values; a thrown error returns no state, which matches the source because
every `throw` happens before any mutation (`setChannel`) on that path.
-/

/-- Balance proof (`MicroProof`): cumulative balance plus optional signature. -/
structure MicroProof where
  balance : Nat
  sig : Option String := none
deriving DecidableEq, Repr

/-- Channel record tracked by the client (`MicroChannel`). -/
structure MicroChannel where
  account : String
  receiver : String
  block : Nat
  proof : MicroProof
  next_proof : Option MicroProof := none
  closing_sig : Option String := none
deriving DecidableEq, Repr

/-- Channel state, the `state` strings of `MicroChannelInfo`. -/
inductive ChannelState where
  | opened
  | closed
  | settled
deriving DecidableEq, Repr

/-- Result of `getChannelInfo` (`MicroChannelInfo`). -/
structure MicroChannelInfo where
  state : ChannelState
  block : Nat
  deposit : Nat
  withdrawn : Nat
deriving DecidableEq, Repr

/-- Error kinds thrown by the client, named after the specification's error
catalogue; `typeError` stands for the JS `TypeError` raised when a method
dereferences `this.channel` while it is unset, and `contractCallFailed` for a
reverting contract call propagated unchanged. -/
inductive MicroError where
  | missingSignature
  | signatureMismatch
  | invalidPendingProof
  | insufficientChannelFunds (current required : Nat)
  | channelNotOpen
  | channelNotClosed
  | settleTooEarly
  | noChannelFound
  | noOpenChannel
  | invalidChannel
  | invalidChallenge
  | noValidChannelInfo
  | contractCallFailed
  | typeError
deriving DecidableEq, Repr

deriving instance DecidableEq for Except

/-- Stored (JSON) form of a proof: `JSON.stringify` serializes a bn.js
`BigNumber` through its `toJSON` method, so the balance becomes a string. -/
structure StoredProof where
  balance : String
  sig : Option String := none
deriving DecidableEq, Repr

/-- Stored (JSON) form of a channel record.  All other fields are strings,
numbers or optional values, which `JSON.stringify`/`JSON.parse` round-trip
structurally, so the JSON layer is kept as this record. -/
structure StoredChannel where
  account : String
  receiver : String
  block : Nat
  proof : StoredProof
  next_proof : Option StoredProof := none
  closing_sig : Option String := none
deriving DecidableEq, Repr

/-- bn.js `toJSON` serializes a big number via `toString(16)`: lowercase
hexadecimal digits, `"0"` for zero. -/
def bnToJson (n : Nat) : String :=
  (Nat.toDigits 16 n).asString

/-- Per-character value used by bn.js string parsing (`parseBase`): the
character code minus 48, with lowercase letters mapping to 10 and up and
uppercase letters likewise. -/
def bnCharVal (c : Char) : Int :=
  let v : Int := (c.toNat : Int) - 48
  if 49 ≤ v then v - 49 + 10
  else if 17 ≤ v then v - 17 + 10
  else v

/-- bn.js `new BN(string)` with the default base 10: a left fold multiplying
by 10 and adding each character's value. -/
def bnParseBase10 (s : String) : Int :=
  s.data.foldl (fun r c => r * 10 + bnCharVal c) 0

/-- Balance obtained by re-parsing a stored balance string with
`new BigNumber(str)` (base 10). -/
def bnFromString (s : String) : Nat :=
  (bnParseBase10 s).toNat

/-- localStorage model: possibly unavailable, otherwise an association list
from keys to stored channel records. -/
inductive Storage where
  | unavailable
  | available (items : List (String × StoredChannel))
deriving DecidableEq, Repr

/-- Lookup of `localStorage.getItem`. -/
def storeGet (items : List (String × StoredChannel)) (key : String) : Option StoredChannel :=
  match items with
  | [] => none
  | (k, v) :: rest => if k = key then some v else storeGet rest key

/-- Overwrite-or-append of `localStorage.setItem`. -/
def storeSet (items : List (String × StoredChannel)) (key : String) (v : StoredChannel) :
    List (String × StoredChannel) :=
  match items with
  | [] => [(key, v)]
  | (k, w) :: rest => if k = key then (k, v) :: rest else (k, w) :: storeSet rest key v

/-- Client state: the tracked channel (possibly unset), the storage, the
channel-manager contract address, the `startBlock` hint and the cached
challenge period (`this.challenge`, initialized to 0). -/
structure Client where
  channel : Option MicroChannel
  storage : Storage
  contractAddr : String
  startBlock : Nat
  challenge : Nat
deriving DecidableEq, Repr

/-- Storage key used by the client: `[account, receiver].join("|")`. -/
def channelKey (account receiver : String) : String :=
  account ++ "|" ++ receiver

/-- Serialization of a proof performed by `JSON.stringify` inside
`setChannel`: the bn.js balance goes through `toJSON`. -/
def serializeProof (p : MicroProof) : StoredProof :=
  ⟨bnToJson p.balance, p.sig⟩

/-- Serialization of a channel record performed by `JSON.stringify`. -/
def serializeChannel (ch : MicroChannel) : StoredChannel :=
  ⟨ch.account, ch.receiver, ch.block, serializeProof ch.proof,
   ch.next_proof.map serializeProof, ch.closing_sig⟩

/-- Re-parsing done by `loadStoredChannel` after `JSON.parse`: the balance of
the proof, and of `next_proof` when present, is rebuilt with
`new BigNumber(str)`; every other field is taken as stored. -/
def parseStoredProof (p : StoredProof) : MicroProof :=
  ⟨bnFromString p.balance, p.sig⟩

/-- Channel obtained from a stored record. -/
def parseStoredChannel (s : StoredChannel) : MicroChannel :=
  ⟨s.account, s.receiver, s.block, parseStoredProof s.proof,
   s.next_proof.map parseStoredProof, s.closing_sig⟩

/-- Method `setChannel`: set the in-memory channel and, when localStorage is
available, persist its JSON form under `account|receiver`. -/
def Client.setChannel (cl : Client) (ch : MicroChannel) : Client :=
  { cl with
    channel := some ch
    storage :=
      match cl.storage with
      | .unavailable => .unavailable
      | .available items =>
          .available (storeSet items (channelKey ch.account ch.receiver) (serializeChannel ch)) }

/-- Method `loadStoredChannel`: when storage is unavailable or holds no value
under the key, unset the tracked channel and return `false`; when a record is
found whose proof balance is a falsy (empty) string, return `false` leaving
everything alone; otherwise re-parse, track and return `true`. -/
def Client.loadStoredChannel (cl : Client) (account receiver : String) : Bool × Client :=
  match cl.storage with
  | .unavailable => (false, { cl with channel := none })
  | .available items =>
    match storeGet items (channelKey account receiver) with
    | some stored =>
      if stored.proof.balance = "" then (false, cl)
      else (true, { cl with channel := some (parseStoredChannel stored) })
    | none => (false, { cl with channel := none })

/-- Method `isChannelValid`: JS truthiness checks on the channel and its
`receiver`, `block`, `proof` and `account` fields (`0` and the empty string
are falsy; the `proof` object is always truthy when present). -/
def isChannelValid (och : Option MicroChannel) : Bool :=
  match och with
  | none => false
  | some ch => ch.receiver != "" && ch.block != 0 && ch.account != ""

/-- JS truthiness of an optional signature string: absent and empty are falsy. -/
def sigPresent (s : Option String) : Bool :=
  match s with
  | none => false
  | some str => str != ""

/-- Typed field of the EIP-712-style canonical tuple (`TypedData`). -/
structure TypedData where
  type : String
  name : String
  value : String
deriving DecidableEq, Repr

/-- Method `getBalanceProofSignatureParams`: the canonical tuple both the
signing request and signature recovery run over, in this fixed order:
message-identifier string, receiver address, open block, balance, and the
channel-manager contract address. -/
def getBalanceProofSignatureParams (contractAddr : String) (ch : MicroChannel)
    (proof : MicroProof) : List TypedData :=
  [⟨"string", "message_id", "Sender balance proof signature"⟩,
   ⟨"address", "receiver", ch.receiver⟩,
   ⟨"uint32", "block_created", toString ch.block⟩,
   ⟨"uint192", "balance", toString proof.balance⟩,
   ⟨"address", "contract", contractAddr⟩]

/-- Method `verifyProof`: requires a signature (else throws), recovers the
signer over the canonical tuple (`recover` abstracts
`recoverTypedSignature`), returns `false` unchanged on mismatch, and on a
match installs the proof, clears `next_proof`, persists and returns `true`. -/
def Client.verifyProof (recover : List TypedData → String → String) (cl : Client)
    (proof : MicroProof) : Except MicroError (Bool × Client) :=
  match cl.channel with
  | none => .error .typeError
  | some ch =>
    match proof.sig with
    | none => .error .missingSignature
    | some sig =>
      if sig = "" then .error .missingSignature
      else
        let params := getBalanceProofSignatureParams cl.contractAddr ch proof
        if recover params sig = ch.account then
          .ok (true, cl.setChannel { ch with proof := proof, next_proof := none })
        else
          .ok (false, cl)

/-- Method `confirmPayment`: requires `next_proof` present, carrying a truthy
signature equal to the supplied proof's signature (else throws); promotes
`next_proof` to `proof`, clears it and persists. -/
def Client.confirmPayment (cl : Client) (proof : MicroProof) : Except MicroError Client :=
  match cl.channel with
  | none => .error .typeError
  | some ch =>
    match ch.next_proof with
    | none => .error .invalidPendingProof
    | some np =>
      if sigPresent np.sig = false then .error .invalidPendingProof
      else if np.sig ≠ proof.sig then .error .invalidPendingProof
      else .ok (cl.setChannel { ch with proof := np, next_proof := none })

/-- Method `setBalance`: when the requested value already equals the current
proof balance the method returns at once, touching nothing; otherwise it
overwrites `proof` with an unsigned proof of the value, clears `next_proof`
and persists. -/
def Client.setBalance (cl : Client) (value : Nat) : Except MicroError Client :=
  match cl.channel with
  | none => .error .typeError
  | some ch =>
    if ch.proof.balance = value then .ok cl
    else .ok (cl.setChannel { ch with proof := ⟨value, none⟩, next_proof := none })

/-- Method `signNewProof`: a proof already carrying a truthy signature is
returned unchanged; otherwise a signature over the canonical tuple is
obtained from the signing collaborator (`sign` abstracts the typed-data
request together with its hashed personal-message fallback) and checked by
recovery against the sender, throwing `SignatureMismatch` on failure.  On
success the signed proof is stored: when its balance equals the confirmed
balance it is stored as `proof` and also as `next_proof`, otherwise as
`next_proof` alone. -/
def Client.signNewProof (recover : List TypedData → String → String)
    (sign : List TypedData → String) (cl : Client) (proofArg : Option MicroProof) :
    Except MicroError (MicroProof × Client) :=
  if isChannelValid cl.channel = false then .error .noValidChannelInfo else
  match cl.channel with
  | none => .error .noValidChannelInfo
  | some ch =>
    let proof := proofArg.getD ch.proof
    if sigPresent proof.sig then .ok (proof, cl)
    else
      let params := getBalanceProofSignatureParams cl.contractAddr ch proof
      let sig := sign params
      if recover params sig ≠ ch.account then .error .signatureMismatch
      else
        let signed : MicroProof := ⟨proof.balance, some sig⟩
        if signed.balance = ch.proof.balance then
          .ok (signed, cl.setChannel { ch with proof := signed, next_proof := some signed })
        else
          .ok (signed, cl.setChannel { ch with next_proof := some signed })

/-- Contract event carrying an `_open_block_number` argument
(`ChannelCloseRequested` and `ChannelSettled`). -/
structure ChannelEvent where
  blockNumber : Nat
  sender : String
  receiver : String
  openBlock : Nat
deriving DecidableEq, Repr

/-- A `ChannelCreated` event; it has no open-block argument, its own block
number is the candidate open block. -/
structure CreatedEvent where
  blockNumber : Nat
  sender : String
  receiver : String
deriving DecidableEq, Repr

/-- Blockchain environment: past event logs, the channel-manager
`getChannelInfo` view (`none` models a reverting call, `some (deposit,
withdrawn)` the tuple positions 1 and 4), the current block number and the
contract's configured `challenge_period`. -/
structure Chain where
  createdEvents : List CreatedEvent
  closeEvents : List ChannelEvent
  settleEvents : List ChannelEvent
  infoView : String → String → Nat → Option (Nat × Nat)
  currentBlock : Nat
  challengePeriod : Nat

/-- Chain identical to `c` except for the channel-info view; used to state
that an operation did not consult the view. -/
def Chain.withView (c : Chain) (v : String → String → Nat → Option (Nat × Nat)) : Chain :=
  { c with infoView := v }

/-- `getPastEvents('ChannelCloseRequested')` with a sender, receiver and
open-block filter and a `fromBlock` lower bound. -/
def queryCloseEvents (chain : Chain) (sender receiver : String) (openBlock fromBlock : Nat) :
    List ChannelEvent :=
  chain.closeEvents.filter fun e =>
    e.sender == sender && e.receiver == receiver && e.openBlock == openBlock &&
      decide (fromBlock ≤ e.blockNumber)

/-- `getPastEvents('ChannelSettled')` with a sender, receiver and open-block
filter and a `fromBlock` lower bound. -/
def querySettleEvents (chain : Chain) (sender receiver : String) (openBlock fromBlock : Nat) :
    List ChannelEvent :=
  chain.settleEvents.filter fun e =>
    e.sender == sender && e.receiver == receiver && e.openBlock == openBlock &&
      decide (fromBlock ≤ e.blockNumber)

/-- Close block determined by `getChannelInfo`: 0 when no
`ChannelCloseRequested` event matches from the open block on, otherwise the
block number of the first returned event. -/
def infoCloseBlock (chain : Chain) (ch : MicroChannel) : Nat :=
  match queryCloseEvents chain ch.account ch.receiver ch.block ch.block with
  | [] => 0
  | e :: _ => e.blockNumber

/-- Settlement block determined by `getChannelInfo`: the `ChannelSettled`
query starts from the close block when one was found (`closed ||
channel.block`), and 0 stands for "no settlement". -/
def infoSettleBlock (chain : Chain) (ch : MicroChannel) : Nat :=
  match querySettleEvents chain ch.account ch.receiver ch.block
      (if infoCloseBlock chain ch = 0 then ch.block else infoCloseBlock chain ch) with
  | [] => 0
  | e :: _ => e.blockNumber

/-- Core of method `getChannelInfo` on a resolved channel argument: classify
as settled (returning early with zero deposit and withdrawn, without calling
the contract view), otherwise call the view, require a strictly positive
deposit, and report closed or opened accordingly. -/
def channelInfoOf (chain : Chain) (och : Option MicroChannel) :
    Except MicroError MicroChannelInfo :=
  if isChannelValid och = false then .error .noValidChannelInfo else
  match och with
  | none => .error .noValidChannelInfo
  | some ch =>
    let closed := infoCloseBlock chain ch
    let settled := infoSettleBlock chain ch
    if settled ≠ 0 then .ok ⟨.settled, settled, 0, 0⟩
    else
      match chain.infoView ch.account ch.receiver ch.block with
      | none => .error .contractCallFailed
      | some (deposit, withdrawn) =>
        if deposit = 0 then .error .invalidChannel
        else .ok ⟨if closed ≠ 0 then .closed else .opened,
                  if closed = 0 then ch.block else closed, deposit, withdrawn⟩

/-- Method `getChannelInfo`: defaults the argument to the tracked channel. -/
def Client.getChannelInfo (chain : Chain) (cl : Client) (chArg : Option MicroChannel) :
    Except MicroError MicroChannelInfo :=
  channelInfoOf chain (match chArg with | some c => some c | none => cl.channel)

/-- Method `getChallengePeriod`: read the contract's challenge period, cache
it on the client, and fail with `InvalidChallenge` unless it is positive. -/
def Client.getChallengePeriod (chain : Chain) (cl : Client) :
    Except MicroError (Nat × Client) :=
  if chain.challengePeriod = 0 then .error .invalidChallenge
  else .ok (chain.challengePeriod, { cl with challenge := chain.challengePeriod })

/-- `ChannelCreated` events considered by discovery: filtered by sender and
receiver, from the client's `startBlock` hint. -/
def discoveryOpenEvents (chain : Chain) (cl : Client) (account receiver : String) :
    List CreatedEvent :=
  chain.createdEvents.filter fun ev =>
    ev.sender == account && ev.receiver == receiver && decide (cl.startBlock ≤ ev.blockNumber)

/-- `Math.min` over the block numbers of the discovered open events (0 when
there are none, a case discovery rejects beforehand). -/
def discoveryMinBlock (chain : Chain) (cl : Client) (account receiver : String) : Nat :=
  match discoveryOpenEvents chain cl account receiver with
  | [] => 0
  | e :: rest => rest.foldl (fun m x => Nat.min m x.blockNumber) e.blockNumber

/-- Close-request events considered by discovery: filtered by sender and
receiver only, from the minimal open block. -/
def discoveryCloseEvents (chain : Chain) (cl : Client) (account receiver : String) :
    List ChannelEvent :=
  chain.closeEvents.filter fun e =>
    e.sender == account && e.receiver == receiver &&
      decide (discoveryMinBlock chain cl account receiver ≤ e.blockNumber)

/-- Settlement events considered by discovery: filtered by sender and
receiver only, from the minimal open block. -/
def discoverySettleEvents (chain : Chain) (cl : Client) (account receiver : String) :
    List ChannelEvent :=
  chain.settleEvents.filter fun e =>
    e.sender == account && e.receiver == receiver &&
      decide (discoveryMinBlock chain cl account receiver ≤ e.blockNumber)

/-- Still-open filter of `loadChannelFromBlockchain`: a candidate open event
is dropped when a settlement event references its block number, or when a
close-request event references it and `openBlock + challenge > currentBlock`
(the challenge window evaluated relative to the open block, as in source). -/
def discoveryStillOpen (chain : Chain) (cl : Client) (account receiver : String) :
    List CreatedEvent :=
  (discoveryOpenEvents chain cl account receiver).filter fun ev =>
    (discoverySettleEvents chain cl account receiver).all
      (fun sev => !(sev.openBlock == ev.blockNumber)) &&
    (discoveryCloseEvents chain cl account receiver).all
      (fun cev => !(cev.openBlock == ev.blockNumber &&
        decide (chain.currentBlock < ev.blockNumber + chain.challengePeriod)))

/-- Zero-balance candidate channel built for a `ChannelCreated` event. -/
def candidateChannel (account receiver : String) (ev : CreatedEvent) : MicroChannel :=
  ⟨account, receiver, ev.blockNumber, ⟨0, none⟩, none, none⟩

/-- Discovery loop of `loadChannelFromBlockchain`: try candidates in event
order, accept the first whose `getChannelInfo` succeeds, ignore failures. -/
def firstValidCandidate (chain : Chain) (account receiver : String) :
    List CreatedEvent → Option MicroChannel
  | [] => none
  | ev :: rest =>
    let ch := candidateChannel account receiver ev
    match channelInfoOf chain (some ch) with
    | .ok _ => some ch
    | .error _ => firstValidCandidate chain account receiver rest

/-- Method `loadChannelFromBlockchain`: scan `ChannelCreated` events, fail
when none match, fetch the challenge period (caching it), filter out settled
and still-challenged candidates, accept the first candidate whose
`getChannelInfo` succeeds (storing it), and fail with `NoOpenChannel` when no
candidate succeeds. -/
def Client.loadChannelFromBlockchain (chain : Chain) (cl : Client)
    (account receiver : String) : Except MicroError (MicroChannel × Client) :=
  if (discoveryOpenEvents chain cl account receiver).isEmpty then .error .noChannelFound
  else
    match Client.getChallengePeriod chain cl with
    | .error e => .error e
    | .ok (_, cl1) =>
      match firstValidCandidate chain account receiver
          (discoveryStillOpen chain cl account receiver) with
      | none => .error .noOpenChannel
      | some ch => .ok (ch, cl1.setChannel ch)

/-- Method `incrementBalanceAndSign`: propose `confirmed balance + amount`,
fetch the current channel info, require the opened state and a deposit
covering the new balance (else `InsufficientChannelFunds` carrying the
deposit as `current` and the new balance as `required`), then delegate to
`signNewProof`.  Both throwing paths precede any mutation. -/
def Client.incrementBalanceAndSign (recover : List TypedData → String → String)
    (sign : List TypedData → String) (chain : Chain) (cl : Client) (amount : Nat) :
    Except MicroError (MicroProof × Client) :=
  if isChannelValid cl.channel = false then .error .noValidChannelInfo else
  match cl.channel with
  | none => .error .noValidChannelInfo
  | some ch =>
    let proof : MicroProof := ⟨ch.proof.balance + amount, none⟩
    match Client.getChannelInfo chain cl none with
    | .error e => .error e
    | .ok info =>
      if info.state ≠ .opened then .error .channelNotOpen
      else if info.deposit < proof.balance then
        .error (.insufficientChannelFunds info.deposit proof.balance)
      else Client.signNewProof recover sign cl (some proof)

/-- The transaction submitted by a successful `settleChannel`:
`settle(receiver, openBlock)`. -/
structure SettleCall where
  receiver : String
  openBlock : Nat
deriving DecidableEq, Repr

/-- Method `settleChannel`: re-fetch the channel info, require the closed
state, and require the challenge window to have elapsed only when the
client's cached challenge period (`this.challenge`) is nonzero; then submit
`settle(receiver, openBlock)`.  Every throwing path precedes the submission,
so an error means nothing was submitted. -/
def Client.settleChannel (chain : Chain) (cl : Client) : Except MicroError SettleCall :=
  if isChannelValid cl.channel = false then .error .noValidChannelInfo else
  match cl.channel with
  | none => .error .noValidChannelInfo
  | some ch =>
    match Client.getChannelInfo chain cl none with
    | .error e => .error e
    | .ok info =>
      if info.state ≠ .closed then .error .channelNotClosed
      else if cl.challenge ≠ 0 ∧ chain.currentBlock < info.block + cl.challenge then
        .error .settleTooEarly
      else .ok ⟨ch.receiver, ch.block⟩

/-- Channel with balance 16 used to exercise the persistence round trip. -/
def c8Channel : MicroChannel := ⟨"0xA", "0xB", 5, ⟨16, none⟩, none, none⟩

/-- Fresh client with empty available storage for the round-trip experiment. -/
def c8Client : Client := ⟨none, .available [], "0xC", 0, 0⟩

/-- C8: the save/load round trip does NOT preserve balances.  `setChannel`
serializes the bn.js balance 16 through `toJSON` as the hexadecimal string
"10", and `loadStoredChannel` re-parses that string with `new BigNumber` in
base 10, yielding 10: the loaded channel differs from the saved one, against
the spec's requirement of exact (decimal) round-tripping. -/
theorem c8_roundtrip_balance_16 :
    c8Channel.proof.balance = 16 ∧
    (serializeChannel c8Channel).proof.balance = "10" ∧
    (Client.loadStoredChannel (Client.setChannel c8Client c8Channel) "0xA" "0xB").1 = true ∧
    ((Client.loadStoredChannel (Client.setChannel c8Client c8Channel) "0xA" "0xB").2.channel.map
      fun ch => ch.proof.balance) = some 10 := by
  refine ⟨rfl, rfl, rfl, rfl⟩

/-- Channel whose proof is signed and which has a pending proof, to probe
`setBalance` at the current balance. -/
def c9Channel : MicroChannel := ⟨"0xA", "0xB", 5, ⟨5, some "sigS"⟩, some ⟨7, some "sigT"⟩, none⟩

/-- Client tracking [[c9Channel]]. -/
def c9Client : Client := ⟨some c9Channel, .available [], "0xC", 0, 0⟩

/-- C9 counterexample: `setBalance` with the channel's current balance is an
early-returning no-op — the prior signature stays on the proof and the
pending proof survives, refuting the claimed unconditional overwrite. -/
theorem c9_setBalance_counterexample :
    Client.setBalance c9Client 5 = .ok c9Client ∧
    c9Channel.proof.sig = some "sigS" ∧
    c9Channel.next_proof = some ⟨7, some "sigT"⟩ := by
  refine ⟨rfl, rfl, rfl⟩

/-- C9 amended: when the requested value differs from the current proof
balance, `setBalance` overwrites `proof` with an unsigned proof of the value,
clears `next_proof` and persists; when it is equal, the call is a no-op that
leaves proof, signature and `next_proof` untouched. -/
theorem c9_setBalance_amended (cl : Client) (ch : MicroChannel) (value : Nat)
    (h : cl.channel = some ch) :
    (ch.proof.balance ≠ value →
      Client.setBalance cl value =
        .ok (cl.setChannel { ch with proof := ⟨value, none⟩, next_proof := none })) ∧
    (ch.proof.balance = value → Client.setBalance cl value = .ok cl) := by
  constructor
  · intro hne
    simp [Client.setBalance, h, hne]
  · intro heq
    simp [Client.setBalance, h, heq]

/-- Witness for the amended C9 at a concrete changed value. -/
theorem c9_setBalance_amended_witness :
    Client.setBalance c9Client 9 =
      .ok (c9Client.setChannel { c9Channel with proof := ⟨9, none⟩, next_proof := none }) := by
  exact (c9_setBalance_amended c9Client c9Channel 9 rfl).1 (by decide)

/-- C4: `confirmPayment` succeeds exactly when a pending proof is present,
carries a signature, and that signature equals the supplied proof's; it then
promotes the pending proof to `proof`, clears `next_proof` and persists.  On
an absent pending proof, absent signature or mismatch it throws
`InvalidPendingProof` (returning no state, hence changing nothing). -/
theorem c4_confirmPayment (cl : Client) (ch : MicroChannel) (proof : MicroProof)
    (h : cl.channel = some ch) :
    (ch.next_proof = none → Client.confirmPayment cl proof = .error .invalidPendingProof) ∧
    (∀ np, ch.next_proof = some np →
      (sigPresent np.sig = true → np.sig = proof.sig →
        Client.confirmPayment cl proof =
          .ok (cl.setChannel { ch with proof := np, next_proof := none })) ∧
      (sigPresent np.sig = false ∨ np.sig ≠ proof.sig →
        Client.confirmPayment cl proof = .error .invalidPendingProof)) := by
  refine ⟨fun hn => ?_, fun np hnp => ⟨fun hs he => ?_, fun hbad => ?_⟩⟩
  · simp [Client.confirmPayment, h, hn]
  · have hs' : sigPresent proof.sig = true := he ▸ hs
    simp [Client.confirmPayment, h, hnp, hs, hs', he]
  · rcases hbad with hb | hb
    · simp [Client.confirmPayment, h, hnp, hb]
    · by_cases hs : sigPresent np.sig = false
      · simp [Client.confirmPayment, h, hnp, hs]
      · simp [Client.confirmPayment, h, hnp, hs, hb]

/-- Channel with a signed pending proof for the C4 witness. -/
def c4Channel : MicroChannel := ⟨"0xA", "0xB", 5, ⟨3, some "s0"⟩, some ⟨7, some "s1"⟩, none⟩

/-- Client tracking [[c4Channel]]. -/
def c4Client : Client := ⟨some c4Channel, .available [], "0xC", 0, 0⟩

/-- Witness for C4: confirming the matching pending proof promotes it. -/
theorem c4_confirmPayment_witness :
    Client.confirmPayment c4Client ⟨7, some "s1"⟩ =
      .ok (c4Client.setChannel { c4Channel with proof := ⟨7, some "s1"⟩, next_proof := none }) := by
  exact ((c4_confirmPayment c4Client c4Channel ⟨7, some "s1"⟩ rfl).2
    ⟨7, some "s1"⟩ rfl).1 (by decide) rfl

/-- C1: `verifyProof` requires a (truthy) signature, else throws
`MissingSignature` returning no state; with a signature it returns `true`,
installs the proof, clears `next_proof` and persists exactly when the signer
recovered over the canonical tuple equals the channel's sender, and returns
`false` leaving the client entirely unchanged otherwise. -/
theorem c1_verifyProof (recover : List TypedData → String → String)
    (cl : Client) (ch : MicroChannel) (proof : MicroProof)
    (h : cl.channel = some ch) :
    (sigPresent proof.sig = false →
      Client.verifyProof recover cl proof = .error .missingSignature) ∧
    (∀ s, proof.sig = some s → s ≠ "" →
      (recover (getBalanceProofSignatureParams cl.contractAddr ch proof) s = ch.account →
        Client.verifyProof recover cl proof =
          .ok (true, cl.setChannel { ch with proof := proof, next_proof := none })) ∧
      (recover (getBalanceProofSignatureParams cl.contractAddr ch proof) s ≠ ch.account →
        Client.verifyProof recover cl proof = .ok (false, cl))) := by
  constructor
  · intro hs
    rcases hp : proof.sig with _ | s
    · simp [Client.verifyProof, h, hp]
    · rw [hp] at hs
      have hs' : s = "" := by simpa [sigPresent] using hs
      simp [Client.verifyProof, h, hp, hs']
  · intro s hp hne
    constructor
    · intro hrec
      simp [Client.verifyProof, h, hp, hne, hrec]
    · intro hrec
      simp [Client.verifyProof, h, hp, hne, hrec]

/-- Channel used by the C1 witness. -/
def c1Channel : MicroChannel := ⟨"0xA", "0xB", 5, ⟨3, none⟩, some ⟨7, some "s1"⟩, none⟩

/-- Client tracking [[c1Channel]]. -/
def c1Client : Client := ⟨some c1Channel, .available [], "0xC", 0, 0⟩

/-- Recovery oracle for the C1 witness: only the signature "good" recovers to
the sender. -/
def c1Recover : List TypedData → String → String :=
  fun _ s => if s = "good" then "0xA" else "0xZ"

/-- Witness for C1: a proof whose signature recovers to the sender is
accepted, installed and the pending proof cleared. -/
theorem c1_verifyProof_witness :
    Client.verifyProof c1Recover c1Client ⟨9, some "good"⟩ =
      .ok (true, c1Client.setChannel { c1Channel with proof := ⟨9, some "good"⟩, next_proof := none }) := by
  exact ((c1_verifyProof c1Recover c1Client c1Channel ⟨9, some "good"⟩ rfl).2
    "good" rfl (by decide)).1 (by decide)

/-- C10: when storage is unavailable or holds no record under the
`account|receiver` key, `loadStoredChannel` returns `false`, unsets the
tracked in-memory channel, and leaves all stored records untouched. -/
theorem c10_loadStoredChannel (cl : Client) (account receiver : String)
    (h : cl.storage = Storage.unavailable ∨
      ∃ items, cl.storage = Storage.available items ∧
        storeGet items (channelKey account receiver) = none) :
    (Client.loadStoredChannel cl account receiver).1 = false ∧
    (Client.loadStoredChannel cl account receiver).2.channel = none ∧
    (Client.loadStoredChannel cl account receiver).2.storage = cl.storage := by
  rcases h with h | ⟨items, h, hget⟩
  · simp [Client.loadStoredChannel, h]
  · simp [Client.loadStoredChannel, h, hget]

/-- Witness for C10: a load from empty storage fails, forgets the tracked
channel and writes nothing. -/
theorem c10_loadStoredChannel_witness :
    (Client.loadStoredChannel ⟨some c1Channel, .available [], "0xC", 0, 0⟩ "0xA" "0xB").1 = false ∧
    (Client.loadStoredChannel ⟨some c1Channel, .available [], "0xC", 0, 0⟩ "0xA" "0xB").2.channel = none ∧
    (Client.loadStoredChannel ⟨some c1Channel, .available [], "0xC", 0, 0⟩ "0xA" "0xB").2.storage =
      (⟨some c1Channel, .available [], "0xC", 0, 0⟩ : Client).storage := by
  exact c10_loadStoredChannel ⟨some c1Channel, .available [], "0xC", 0, 0⟩ "0xA" "0xB"
    (.inr ⟨[], rfl, rfl⟩)

/-- Channel with confirmed balance 3 used to probe `signNewProof`. -/
def c2Channel : MicroChannel := ⟨"0xA", "0xB", 5, ⟨3, none⟩, none, none⟩

/-- Client tracking [[c2Channel]]. -/
def c2Client : Client := ⟨some c2Channel, .available [], "0xC", 0, 0⟩

/-- Recovery oracle that always recovers the sender address. -/
def c2Recover : List TypedData → String → String := fun _ _ => "0xA"

/-- Signing oracle producing the fixed signature "s1". -/
def c2Sign : List TypedData → String := fun _ => "s1"

/-- C2 counterexample: signing an unsigned proof whose balance equals the
confirmed balance stores the signed proof as `proof` AND also as
`next_proof` — the pending proof IS set, refuting the claim's "no pending
step (pendingProof is not set)". -/
theorem c2_signNewProof_counterexample :
    Client.signNewProof c2Recover c2Sign c2Client (some ⟨3, none⟩) =
      .ok (⟨3, some "s1"⟩, c2Client.setChannel
        { c2Channel with proof := ⟨3, some "s1"⟩, next_proof := some ⟨3, some "s1"⟩ }) ∧
    (c2Client.setChannel
        { c2Channel with proof := ⟨3, some "s1"⟩, next_proof := some ⟨3, some "s1"⟩ }).channel.bind
        (fun ch => ch.next_proof) = some ⟨3, some "s1"⟩ := by
  refine ⟨rfl, rfl⟩

/-- C2 amended: for an unsigned proof successfully signed by `signNewProof`,
when its balance equals the confirmed `proof.balance` the signed proof is
stored as the channel's `proof` and additionally recorded as `next_proof`
(pendingProof is set to the same signed proof); otherwise it is stored as
`next_proof` alone, leaving the confirmed proof unchanged. -/
theorem c2_signNewProof_amended (recover : List TypedData → String → String)
    (sign : List TypedData → String) (cl : Client) (ch : MicroChannel) (p : MicroProof)
    (h : cl.channel = some ch) (hvalid : isChannelValid cl.channel = true)
    (hsig : sigPresent p.sig = false)
    (hrec : recover (getBalanceProofSignatureParams cl.contractAddr ch p)
      (sign (getBalanceProofSignatureParams cl.contractAddr ch p)) = ch.account) :
    (p.balance = ch.proof.balance →
      Client.signNewProof recover sign cl (some p) =
        .ok (⟨p.balance, some (sign (getBalanceProofSignatureParams cl.contractAddr ch p))⟩,
          cl.setChannel { ch with
            proof := ⟨p.balance, some (sign (getBalanceProofSignatureParams cl.contractAddr ch p))⟩,
            next_proof :=
              some ⟨p.balance, some (sign (getBalanceProofSignatureParams cl.contractAddr ch p))⟩ })) ∧
    (p.balance ≠ ch.proof.balance →
      Client.signNewProof recover sign cl (some p) =
        .ok (⟨p.balance, some (sign (getBalanceProofSignatureParams cl.contractAddr ch p))⟩,
          cl.setChannel { ch with
            next_proof :=
              some ⟨p.balance, some (sign (getBalanceProofSignatureParams cl.contractAddr ch p))⟩ })) := by
  have hv : isChannelValid (some ch) = true := h ▸ hvalid
  constructor
  · intro heq
    simp [Client.signNewProof, h, hv, hsig, hrec, heq]
  · intro hne
    simp [Client.signNewProof, h, hv, hsig, hrec, hne]

/-- Witness for the amended C2 at a changed balance: the signed proof lands
in `next_proof` only. -/
theorem c2_signNewProof_amended_witness :
    Client.signNewProof c2Recover c2Sign c2Client (some ⟨8, none⟩) =
      .ok (⟨8, some "s1"⟩,
        c2Client.setChannel { c2Channel with next_proof := some ⟨8, some "s1"⟩ }) := by
  exact (c2_signNewProof_amended c2Recover c2Sign c2Client c2Channel ⟨8, none⟩
    rfl (by decide) rfl (by decide)).2 (by decide)

/-- Channel used by the C3 witness. -/
def c3Channel : MicroChannel := ⟨"0xA", "0xB", 5, ⟨3, none⟩, none, none⟩

/-- Client tracking [[c3Channel]]. -/
def c3Client : Client := ⟨some c3Channel, .available [], "0xC", 0, 0⟩

/-- Chain with no events and a channel-info view reporting deposit 10. -/
def c3Chain : Chain := ⟨[], [], [], fun _ _ _ => some (10, 0), 100, 50⟩

/-- C3: when the fetched channel info is opened but the proposed balance
(confirmed balance plus amount) exceeds the deposit,
`incrementBalanceAndSign` throws `InsufficientChannelFunds` carrying the
deposit as `current` and the proposed balance as `required`; when the fetched
state is not opened it throws `ChannelNotOpen`.  Both throws happen before
any signing or mutation, so the channel and its `next_proof` are untouched. -/
theorem c3_incrementBalanceAndSign (recover : List TypedData → String → String)
    (sign : List TypedData → String) (chain : Chain) (cl : Client) (ch : MicroChannel)
    (amount : Nat) (info : MicroChannelInfo)
    (h : cl.channel = some ch) (hvalid : isChannelValid cl.channel = true)
    (hinfo : Client.getChannelInfo chain cl none = .ok info) :
    (info.state = .opened → info.deposit < ch.proof.balance + amount →
      Client.incrementBalanceAndSign recover sign chain cl amount =
        .error (.insufficientChannelFunds info.deposit (ch.proof.balance + amount))) ∧
    (info.state ≠ .opened →
      Client.incrementBalanceAndSign recover sign chain cl amount = .error .channelNotOpen) := by
  have hv : isChannelValid (some ch) = true := h ▸ hvalid
  constructor
  · intro hst hgt
    simp [Client.incrementBalanceAndSign, h, hv, hinfo, hst, hgt]
  · intro hst
    simp [Client.incrementBalanceAndSign, h, hv, hinfo, hst]

/-- Witness for C3: balance 3 plus amount 20 exceeds the deposit 10. -/
theorem c3_incrementBalanceAndSign_witness :
    Client.incrementBalanceAndSign c2Recover c2Sign c3Chain c3Client 20 =
      .error (.insufficientChannelFunds 10 23) := by
  exact (c3_incrementBalanceAndSign c2Recover c2Sign c3Chain c3Client c3Channel 20
    ⟨.opened, 5, 10, 0⟩ rfl (by decide) (by decide)).1 rfl (by decide)

/-- Channel opened at block 10 used for the settle scenarios. -/
def c7Channel : MicroChannel := ⟨"0xA", "0xB", 10, ⟨0, none⟩, none, none⟩

/-- Client tracking [[c7Channel]] whose cached challenge period was never
fetched (still 0). -/
def c7Client : Client := ⟨some c7Channel, .available [], "0xC", 0, 0⟩

/-- Chain where the channel was closed at block 100, the configured challenge
period is 500, and the current block is 300 (inside the challenge window). -/
def c7Chain : Chain :=
  ⟨[], [⟨100, "0xA", "0xB", 10⟩], [], fun _ _ _ => some (5, 0), 300, 500⟩

/-- C7 counterexample: with the cached challenge period still 0,
`settleChannel` submits `settle(receiver, openBlock)` although the channel is
closed and the contract's challenge window (500 blocks from close block 100)
has not elapsed at current block 300 — instead of failing with
`SettleTooEarly` as claimed. -/
theorem c7_settleChannel_counterexample :
    Client.getChannelInfo c7Chain c7Client none = .ok ⟨.closed, 100, 5, 0⟩ ∧
    c7Chain.currentBlock < 100 + c7Chain.challengePeriod ∧
    Client.settleChannel c7Chain c7Client = .ok ⟨"0xB", 10⟩ := by
  refine ⟨by decide, by decide, by decide⟩

/-- C7 amended: the settle-too-early guard compares against the client's
cached challenge period and is skipped entirely when that cache is zero.
With the state closed, a nonzero cache and `currentBlock < closeBlock +
cachedChallenge` the call fails with `SettleTooEarly` submitting nothing;
with the state closed and the guard passing it submits
`settle(receiver, openBlock)`; with any other state it fails. -/
theorem c7_settleChannel_amended (chain : Chain) (cl : Client) (ch : MicroChannel)
    (info : MicroChannelInfo) (h : cl.channel = some ch)
    (hvalid : isChannelValid cl.channel = true)
    (hinfo : Client.getChannelInfo chain cl none = .ok info) :
    (info.state = .closed → cl.challenge ≠ 0 →
      chain.currentBlock < info.block + cl.challenge →
      Client.settleChannel chain cl = .error .settleTooEarly) ∧
    (info.state = .closed →
      ¬(cl.challenge ≠ 0 ∧ chain.currentBlock < info.block + cl.challenge) →
      Client.settleChannel chain cl = .ok ⟨ch.receiver, ch.block⟩) ∧
    (info.state ≠ .closed → Client.settleChannel chain cl = .error .channelNotClosed) := by
  have hv : isChannelValid (some ch) = true := h ▸ hvalid
  refine ⟨fun hst hc hlt => ?_, fun hst hguard => ?_, fun hst => ?_⟩
  · simp [Client.settleChannel, h, hv, hinfo, hst, hc, hlt]
  · simp [Client.settleChannel, h, hv, hinfo, hst, hguard]
  · simp [Client.settleChannel, h, hv, hinfo, hst]

/-- Client tracking [[c7Channel]] with the challenge period 500 cached. -/
def c7CachedClient : Client := ⟨some c7Channel, .available [], "0xC", 0, 500⟩

/-- Witness for the amended C7: with the challenge period cached, settling
inside the window fails with `SettleTooEarly`. -/
theorem c7_settleChannel_amended_witness :
    Client.settleChannel c7Chain c7CachedClient = .error .settleTooEarly := by
  exact (c7_settleChannel_amended c7Chain c7CachedClient c7Channel ⟨.closed, 100, 5, 0⟩
    rfl (by decide) (by decide)).1 rfl (by decide) (by decide)

/-- Head of a nonempty close-request query satisfies the `fromBlock` bound. -/
theorem queryCloseEvents_head_le {chain : Chain} {s r : String} {ob fb : Nat}
    {e : ChannelEvent} {rest : List ChannelEvent}
    (hq : queryCloseEvents chain s r ob fb = e :: rest) : fb ≤ e.blockNumber := by
  have hmem : e ∈ queryCloseEvents chain s r ob fb := by
    rw [hq]
    exact List.mem_cons_self _ _
  unfold queryCloseEvents at hmem
  rw [List.mem_filter] at hmem
  have hp := hmem.2
  simp at hp
  exact hp.2

/-- Head of a nonempty settlement query satisfies the `fromBlock` bound. -/
theorem querySettleEvents_head_le {chain : Chain} {s r : String} {ob fb : Nat}
    {e : ChannelEvent} {rest : List ChannelEvent}
    (hq : querySettleEvents chain s r ob fb = e :: rest) : fb ≤ e.blockNumber := by
  have hmem : e ∈ querySettleEvents chain s r ob fb := by
    rw [hq]
    exact List.mem_cons_self _ _
  unfold querySettleEvents at hmem
  rw [List.mem_filter] at hmem
  have hp := hmem.2
  simp at hp
  exact hp.2

/-- Events do not depend on the channel-info view. -/
theorem infoCloseBlock_withView (chain : Chain) (v : String → String → Nat → Option (Nat × Nat))
    (ch : MicroChannel) : infoCloseBlock (chain.withView v) ch = infoCloseBlock chain ch := rfl

/-- Settlement classification does not depend on the channel-info view. -/
theorem infoSettleBlock_withView (chain : Chain) (v : String → String → Nat → Option (Nat × Nat))
    (ch : MicroChannel) : infoSettleBlock (chain.withView v) ch = infoSettleBlock chain ch := rfl

/-- C6: `getChannelInfo` reports the channel settled (settlement block, zero
deposit and withdrawn) whenever the settlement query is nonempty, and does so
for every channel-info view, i.e. without consulting the view; otherwise it
calls the view and fails with `InvalidChannel` unless the returned deposit is
strictly positive; on success it reports closed with the close block when a
close-request event exists and opened with the open block otherwise. -/
theorem c6_getChannelInfo (chain : Chain) (cl : Client) (ch : MicroChannel)
    (h : cl.channel = some ch) (hvalid : isChannelValid cl.channel = true) :
    (querySettleEvents chain ch.account ch.receiver ch.block
        (if infoCloseBlock chain ch = 0 then ch.block else infoCloseBlock chain ch) ≠ [] →
      ∀ v, Client.getChannelInfo (chain.withView v) cl none =
        .ok ⟨.settled, infoSettleBlock chain ch, 0, 0⟩) ∧
    (querySettleEvents chain ch.account ch.receiver ch.block
        (if infoCloseBlock chain ch = 0 then ch.block else infoCloseBlock chain ch) = [] →
      (chain.infoView ch.account ch.receiver ch.block = none →
        Client.getChannelInfo chain cl none = .error .contractCallFailed) ∧
      (∀ d w, chain.infoView ch.account ch.receiver ch.block = some (d, w) →
        (d = 0 → Client.getChannelInfo chain cl none = .error .invalidChannel) ∧
        (d ≠ 0 →
          (queryCloseEvents chain ch.account ch.receiver ch.block ch.block ≠ [] →
            Client.getChannelInfo chain cl none =
              .ok ⟨.closed, infoCloseBlock chain ch, d, w⟩) ∧
          (queryCloseEvents chain ch.account ch.receiver ch.block ch.block = [] →
            Client.getChannelInfo chain cl none = .ok ⟨.opened, ch.block, d, w⟩)))) := by
  have hv : isChannelValid (some ch) = true := h ▸ hvalid
  have hb : ch.block ≠ 0 := by
    have hv2 := hv
    simp [isChannelValid, Bool.and_eq_true] at hv2
    exact hv2.1.2
  constructor
  · intro hsne v
    rcases hq : querySettleEvents chain ch.account ch.receiver ch.block
        (if infoCloseBlock chain ch = 0 then ch.block else infoCloseBlock chain ch)
      with _ | ⟨e, rest⟩
    · exact absurd hq hsne
    · have hfb : (if infoCloseBlock chain ch = 0 then ch.block else infoCloseBlock chain ch) ≠ 0 := by
        split
        · exact hb
        · assumption
      have hle := querySettleEvents_head_le hq
      have hene : e.blockNumber ≠ 0 := by omega
      have hset : infoSettleBlock chain ch = e.blockNumber := by
        unfold infoSettleBlock
        rw [hq]
      simp [Client.getChannelInfo, channelInfoOf, h, hv,
        infoCloseBlock_withView, infoSettleBlock_withView, hset, hene]
  · intro hse
    have hset : infoSettleBlock chain ch = 0 := by
      unfold infoSettleBlock
      rw [hse]
    refine ⟨fun hvnone => ?_, fun d w hview => ⟨fun hd0 => ?_, fun hdpos => ?_⟩⟩
    · simp [Client.getChannelInfo, channelInfoOf, h, hv, hset, hvnone]
    · simp [Client.getChannelInfo, channelInfoOf, h, hv, hset, hview, hd0]
    · refine ⟨fun hcne => ?_, fun hceq => ?_⟩
      · rcases hq : queryCloseEvents chain ch.account ch.receiver ch.block ch.block
          with _ | ⟨e, rest⟩
        · exact absurd hq hcne
        · have hle := queryCloseEvents_head_le hq
          have hene : e.blockNumber ≠ 0 := by omega
          have hcb : infoCloseBlock chain ch = e.blockNumber := by
            unfold infoCloseBlock
            rw [hq]
          simp [Client.getChannelInfo, channelInfoOf, h, hv, hset, hview, hdpos, hcb, hene]
      · have hcb : infoCloseBlock chain ch = 0 := by
          unfold infoCloseBlock
          rw [hceq]
        simp [Client.getChannelInfo, channelInfoOf, h, hv, hset, hview, hdpos, hcb]

/-- Channel opened at block 10 for the C6 witness. -/
def c6Channel : MicroChannel := ⟨"0xA", "0xB", 10, ⟨0, none⟩, none, none⟩

/-- Client tracking [[c6Channel]]. -/
def c6Client : Client := ⟨some c6Channel, .available [], "0xC", 0, 0⟩

/-- Chain where the channel was closed at block 100 and settled at block 200. -/
def c6Chain : Chain :=
  ⟨[], [⟨100, "0xA", "0xB", 10⟩], [⟨200, "0xA", "0xB", 10⟩], fun _ _ _ => some (5, 0), 300, 500⟩

/-- Witness for C6: the settled channel is reported from events alone — even
under a view that always reverts, the result is settled at block 200. -/
theorem c6_getChannelInfo_witness :
    Client.getChannelInfo (c6Chain.withView fun _ _ _ => none) c6Client none =
      .ok ⟨.settled, infoSettleBlock c6Chain c6Channel, 0, 0⟩ := by
  exact (c6_getChannelInfo c6Chain c6Client c6Channel rfl (by decide)).1 (by decide) _

/-- Success of a candidate's `getChannelInfo` call — the acceptance test of
the discovery loop — as a Boolean predicate usable with `List.find?`. -/
def infoSucceeds (chain : Chain) (account receiver : String) (ev : CreatedEvent) : Bool :=
  match channelInfoOf chain (some (candidateChannel account receiver ev)) with
  | .ok _ => true
  | .error _ => false

/-- The discovery loop accepts exactly the first candidate (in event order)
whose `getChannelInfo` succeeds. -/
theorem firstValidCandidate_eq_find (chain : Chain) (account receiver : String)
    (l : List CreatedEvent) :
    firstValidCandidate chain account receiver l =
      (l.find? (infoSucceeds chain account receiver)).map (candidateChannel account receiver) := by
  induction l with
  | nil => rfl
  | cons ev rest ih =>
    rcases hinfo : channelInfoOf chain (some (candidateChannel account receiver ev)) with err | val
    · have hp : infoSucceeds chain account receiver ev = false := by
        simp [infoSucceeds, hinfo]
      rw [List.find?_cons_of_neg _ (by simp [hp])]
      simp only [firstValidCandidate]
      rw [hinfo]
      exact ih
    · have hp : infoSucceeds chain account receiver ev = true := by
        simp [infoSucceeds, hinfo]
      rw [List.find?_cons_of_pos _ hp]
      simp only [firstValidCandidate]
      rw [hinfo]
      simp

/-- C5: a candidate open event is excluded from the still-open set exactly
when a queried settlement event references its open block, or a queried
close-request event references it while `openBlock + challengePeriod >
currentBlock` (the challenge window evaluated relative to the open block);
among the remaining candidates discovery accepts the first, in event order,
whose `getChannelInfo` succeeds — ignoring per-candidate failures — caching
the challenge period and storing the accepted channel; when no candidate
succeeds it fails with `NoOpenChannel`. -/
theorem c5_loadChannelFromBlockchain (chain : Chain) (cl : Client) (account receiver : String)
    (hopen : discoveryOpenEvents chain cl account receiver ≠ [])
    (hch : chain.challengePeriod ≠ 0) :
    (∀ ev, ev ∈ discoveryStillOpen chain cl account receiver ↔
      ev ∈ discoveryOpenEvents chain cl account receiver ∧
      ¬(∃ sev ∈ discoverySettleEvents chain cl account receiver,
          sev.openBlock = ev.blockNumber) ∧
      ¬(∃ cev ∈ discoveryCloseEvents chain cl account receiver,
          cev.openBlock = ev.blockNumber ∧
          chain.currentBlock < ev.blockNumber + chain.challengePeriod)) ∧
    (match (discoveryStillOpen chain cl account receiver).find?
        (infoSucceeds chain account receiver) with
     | some ev =>
        Client.loadChannelFromBlockchain chain cl account receiver =
          .ok (candidateChannel account receiver ev,
            Client.setChannel { cl with challenge := chain.challengePeriod }
              (candidateChannel account receiver ev))
     | none =>
        Client.loadChannelFromBlockchain chain cl account receiver =
          .error .noOpenChannel) := by
  constructor
  · intro ev
    constructor
    · intro hmem
      simp only [discoveryStillOpen, List.mem_filter] at hmem
      obtain ⟨hm, hp⟩ := hmem
      simp only [Bool.and_eq_true, List.all_eq_true] at hp
      obtain ⟨hs, hc⟩ := hp
      refine ⟨hm, ?_, ?_⟩
      · rintro ⟨sev, hsev, heq⟩
        have hx := hs sev hsev
        simp [heq] at hx
      · rintro ⟨cev, hcev, heq, hlt⟩
        have hx := hc cev hcev
        simp [heq, hlt] at hx
    · rintro ⟨hm, hns, hnc⟩
      simp only [discoveryStillOpen, List.mem_filter]
      refine ⟨hm, ?_⟩
      simp only [Bool.and_eq_true, List.all_eq_true]
      constructor
      · intro sev hsev
        rw [Bool.not_eq_true', Bool.eq_false_iff]
        intro hbad
        simp only [beq_iff_eq] at hbad
        exact hns ⟨sev, hsev, hbad⟩
      · intro cev hcev
        rw [Bool.not_eq_true', Bool.eq_false_iff]
        intro hbad
        simp only [Bool.and_eq_true, beq_iff_eq, decide_eq_true_eq] at hbad
        exact hnc ⟨cev, hcev, hbad.1, hbad.2⟩
  · have hne : (discoveryOpenEvents chain cl account receiver).isEmpty = false := by
      cases hl : discoveryOpenEvents chain cl account receiver with
      | nil => exact absurd hl hopen
      | cons a l => rfl
    rcases hfind : (discoveryStillOpen chain cl account receiver).find?
        (infoSucceeds chain account receiver) with _ | ev
    · simp [Client.loadChannelFromBlockchain, hne, Client.getChallengePeriod, hch,
        firstValidCandidate_eq_find, hfind]
    · simp [Client.loadChannelFromBlockchain, hne, Client.getChallengePeriod, hch,
        firstValidCandidate_eq_find, hfind]

/-- Chain for the C5 witness: channels opened at blocks 100 and 200, the
first one settled at block 150, and a view accepting only open block 200. -/
def c5Chain : Chain :=
  ⟨[⟨100, "0xA", "0xB"⟩, ⟨200, "0xA", "0xB"⟩], [], [⟨150, "0xA", "0xB", 100⟩],
   fun _ _ b => if b = 200 then some (10, 0) else none, 1000, 50⟩

/-- Fresh client used by the C5 witness. -/
def c5Client : Client := ⟨none, .available [], "0xC", 0, 0⟩

/-- Witness for C5 on a concrete chain: the settled candidate is excluded and
the first surviving valid candidate (open block 200) is accepted. -/
theorem c5_loadChannelFromBlockchain_witness :
    (∀ ev, ev ∈ discoveryStillOpen c5Chain c5Client "0xA" "0xB" ↔
      ev ∈ discoveryOpenEvents c5Chain c5Client "0xA" "0xB" ∧
      ¬(∃ sev ∈ discoverySettleEvents c5Chain c5Client "0xA" "0xB",
          sev.openBlock = ev.blockNumber) ∧
      ¬(∃ cev ∈ discoveryCloseEvents c5Chain c5Client "0xA" "0xB",
          cev.openBlock = ev.blockNumber ∧
          c5Chain.currentBlock < ev.blockNumber + c5Chain.challengePeriod)) ∧
    (match (discoveryStillOpen c5Chain c5Client "0xA" "0xB").find?
        (infoSucceeds c5Chain "0xA" "0xB") with
     | some ev =>
        Client.loadChannelFromBlockchain c5Chain c5Client "0xA" "0xB" =
          .ok (candidateChannel "0xA" "0xB" ev,
            Client.setChannel { c5Client with challenge := c5Chain.challengePeriod }
              (candidateChannel "0xA" "0xB" ev))
     | none =>
        Client.loadChannelFromBlockchain c5Chain c5Client "0xA" "0xB" =
          .error .noOpenChannel) := by
  exact c5_loadChannelFromBlockchain c5Chain c5Client "0xA" "0xB" (by decide) (by decide)
